import Mathlib

set_option maxRecDepth 100000

/-!
Verification of the `whatsapp_client` webhook layer.

We shallowly embed the Python modules `whatsapp_client/_webhook/_types.py`
and `whatsapp_client/_webhook/__init__.py`.  Python values flowing through
the webhook parser are modelled by an inductive `Json` type (Python dicts
become association lists with first-match lookup; payloads produced by
`json.loads` never contain duplicate keys, and our model of `json.loads`
deduplicates keys keeping the last binding, like a Python dict).
Python exceptions are modelled by `Except` with an explicit error type:
`KeyError` keeps its key, and every other runtime exception raised by the
operations used here (`TypeError`, `AttributeError`) is collapsed into
`PyErr.typeError`.
-/

namespace WhatsApp

/-- Model of a Python value as it appears in a decoded webhook payload. -/
inductive Json where
  | null : Json
  | bool (b : Bool) : Json
  | num (n : Int) : Json
  | str (s : String) : Json
  | arr (elems : List Json) : Json
  | obj (kvs : List (String × Json)) : Json

mutual

/-- Decidable equality for `Json` (the nested-inductive deriving handler
is unavailable, so we spell it out). -/
def Json.decEq : (a b : Json) → Decidable (a = b)
  | .null, .null => .isTrue rfl
  | .bool a, .bool b =>
    if h : a = b then .isTrue (by rw [h]) else .isFalse (by simp [h])
  | .num a, .num b =>
    if h : a = b then .isTrue (by rw [h]) else .isFalse (by simp [h])
  | .str a, .str b =>
    if h : a = b then .isTrue (by rw [h]) else .isFalse (by simp [h])
  | .arr xs, .arr ys =>
    match Json.decEqList xs ys with
    | .isTrue h => .isTrue (by rw [h])
    | .isFalse h => .isFalse (by simp [h])
  | .obj xs, .obj ys =>
    match Json.decEqKVs xs ys with
    | .isTrue h => .isTrue (by rw [h])
    | .isFalse h => .isFalse (by simp [h])
  | .null, .bool _ | .null, .num _ | .null, .str _ | .null, .arr _ | .null, .obj _
  | .bool _, .null | .bool _, .num _ | .bool _, .str _ | .bool _, .arr _ | .bool _, .obj _
  | .num _, .null | .num _, .bool _ | .num _, .str _ | .num _, .arr _ | .num _, .obj _
  | .str _, .null | .str _, .bool _ | .str _, .num _ | .str _, .arr _ | .str _, .obj _
  | .arr _, .null | .arr _, .bool _ | .arr _, .num _ | .arr _, .str _ | .arr _, .obj _
  | .obj _, .null | .obj _, .bool _ | .obj _, .num _ | .obj _, .str _ | .obj _, .arr _ =>
    .isFalse (by simp)

def Json.decEqList : (xs ys : List Json) → Decidable (xs = ys)
  | [], [] => .isTrue rfl
  | [], _ :: _ => .isFalse (by simp)
  | _ :: _, [] => .isFalse (by simp)
  | x :: xs, y :: ys =>
    match Json.decEq x y, Json.decEqList xs ys with
    | .isTrue h1, .isTrue h2 => .isTrue (by rw [h1, h2])
    | .isFalse h1, _ => .isFalse (by simp [h1])
    | _, .isFalse h2 => .isFalse (by simp [h2])

def Json.decEqKVs : (xs ys : List (String × Json)) → Decidable (xs = ys)
  | [], [] => .isTrue rfl
  | [], _ :: _ => .isFalse (by simp)
  | _ :: _, [] => .isFalse (by simp)
  | (k, v) :: xs, (k2, v2) :: ys =>
    match String.decEq k k2, Json.decEq v v2, Json.decEqKVs xs ys with
    | .isTrue h0, .isTrue h1, .isTrue h2 => .isTrue (by rw [h0, h1, h2])
    | .isFalse h0, _, _ => .isFalse (by simp [h0])
    | _, .isFalse h1, _ => .isFalse (by simp [h1])
    | _, _, .isFalse h2 => .isFalse (by simp [h2])

end

instance : DecidableEq Json := Json.decEq

instance {ε α : Type} [DecidableEq ε] [DecidableEq α] : DecidableEq (Except ε α) :=
  fun a b =>
    match a, b with
    | .ok x, .ok y =>
      if h : x = y then .isTrue (by rw [h]) else .isFalse (by simp [h])
    | .error x, .error y =>
      if h : x = y then .isTrue (by rw [h]) else .isFalse (by simp [h])
    | .ok _, .error _ => .isFalse (fun h => Except.noConfusion h)
    | .error _, .ok _ => .isFalse (fun h => Except.noConfusion h)

/-- Python runtime exceptions observable from the webhook parser. -/
inductive PyErr where
  | keyError (k : String) : PyErr
  | typeError : PyErr
  | valueError : PyErr
deriving DecidableEq

/-- First-match association-list lookup (dict lookup; key sets are unique
in any value produced by `json.loads`). -/
def Json.lookup : List (String × Json) → String → Option Json
  | [], _ => none
  | (k, v) :: rest, key => if k = key then some v else Json.lookup rest key

/-- Python `d[k]`: `KeyError` on a dict without the key, `TypeError` on a
non-dict. -/
def Json.getItem : Json → String → Except PyErr Json
  | .obj kvs, k =>
    match Json.lookup kvs k with
    | some v => .ok v
    | none => .error (.keyError k)
  | _, _ => .error .typeError

/-- Python `d.get(k, default)`: only dicts have `.get` (anything else
raises `AttributeError`, collapsed to `typeError`). -/
def Json.get : Json → String → Json → Except PyErr Json
  | .obj kvs, k, dflt => .ok ((Json.lookup kvs k).getD dflt)
  | _, _, _ => .error .typeError

/-- Python `k in d` for a string `k`: key membership on dicts, element
membership on lists, substring on strings; `TypeError` otherwise. -/
def Json.hasKey : Json → String → Except PyErr Bool
  | .obj kvs, k => .ok (kvs.any fun p => p.1 == k)
  | .arr xs, k => .ok (xs.any fun x => x == Json.str k)
  | .str s, k => .ok (k = "" || (s.splitOn k).length != 1)
  | _, _ => .error .typeError

/-- Python `for x in v`: lists yield their elements, strings their
one-character substrings, dicts their keys; `TypeError` otherwise. -/
def Json.iterate : Json → Except PyErr (List Json)
  | .arr xs => .ok xs
  | .str s => .ok (s.data.map fun c => .str (String.mk [c]))
  | .obj kvs => .ok (kvs.map fun p => .str p.1)
  | _ => .error .typeError

-- --- The dataclasses of `_webhook/_types.py`.  A field the Python code
-- copies straight out of the payload without conversion is kept as `Json`
-- (Python dataclasses do not enforce their annotations at runtime). ---

structure WebhookMetadata where
  display_phone_number : Json
  phone_number_id : Json
deriving DecidableEq

structure WebhookContact where
  wa_id : Json
  name : Json
deriving DecidableEq

structure MessageContext where
  from_ : Json
  id : Json
deriving DecidableEq

/-- The `MessageContent` union: one constructor per content dataclass. -/
inductive MessageContent where
  | text (body : Json) : MessageContent
  | media (id mime_type sha256 caption : Json) : MessageContent
  | location (latitude longitude name address : Json) : MessageContent
  | buttonReply (id title : Json) : MessageContent
  | listReply (id title description : Json) : MessageContent
  | reaction (message_id emoji : Json) : MessageContent
  | unsupported (raw : Json) : MessageContent
deriving DecidableEq

structure Message where
  id : Json
  from_ : Json
  timestamp : Json
  type : Json
  content : MessageContent
  context : Option MessageContext
deriving DecidableEq

structure StatusError where
  code : Json
  title : Json
deriving DecidableEq

structure ConversationOrigin where
  type : Json
deriving DecidableEq

structure Conversation where
  id : Json
  origin : ConversationOrigin
deriving DecidableEq

structure Pricing where
  billable : Json
  pricing_model : Json
  category : Json
deriving DecidableEq

structure Status where
  id : Json
  status : Json
  timestamp : Json
  recipient_id : Json
  conversation : Option Conversation
  pricing : Option Pricing
  errors : Option (List StatusError)
deriving DecidableEq

structure WebhookNotification where
  metadata : WebhookMetadata
  contacts : List WebhookContact
  messages : List Message
  statuses : List Status
deriving DecidableEq

namespace WebhookNotification

/-- `WebhookNotification._parse_content` from `_webhook/_types.py`. -/
def parse_content (msg : Json) : Except PyErr MessageContent := do
  let msg_type ← msg.get "type" (.str "")
  if msg_type = .str "text" then
    let text ← msg.getItem "text"
    let body ← text.getItem "body"
    return .text body
  else if msg_type = .str "image" ∨ msg_type = .str "video" ∨ msg_type = .str "audio"
      ∨ msg_type = .str "document" ∨ msg_type = .str "sticker" then
    let tyName := match msg_type with | .str s => s | _ => ""
    let media ← msg.getItem tyName
    let i ← media.getItem "id"
    let mt ← media.getItem "mime_type"
    let sh ← media.getItem "sha256"
    let cap ← media.get "caption" .null
    return .media i mt sh cap
  else if msg_type = .str "location" then
    let loc ← msg.getItem "location"
    let lat ← loc.getItem "latitude"
    let lon ← loc.getItem "longitude"
    let name ← loc.get "name" .null
    let addr ← loc.get "address" .null
    return .location lat lon name addr
  else if msg_type = .str "button" then
    let button ← msg.getItem "button"
    let payload ← button.getItem "payload"
    let text ← button.getItem "text"
    return .buttonReply payload text
  else if msg_type = .str "interactive" then
    let interactive ← msg.getItem "interactive"
    let interactive_type ← interactive.get "type" (.str "")
    if interactive_type = .str "button_reply" then
      let reply ← interactive.getItem "button_reply"
      let i ← reply.getItem "id"
      let t ← reply.getItem "title"
      return .buttonReply i t
    else if interactive_type = .str "list_reply" then
      let reply ← interactive.getItem "list_reply"
      let i ← reply.getItem "id"
      let t ← reply.getItem "title"
      let d ← reply.get "description" .null
      return .listReply i t d
    else
      return .unsupported msg
  else if msg_type = .str "reaction" then
    let reaction ← msg.getItem "reaction"
    let mid ← reaction.getItem "message_id"
    let emo ← reaction.getItem "emoji"
    return .reaction mid emo
  else
    return .unsupported msg

/-- The `if "context" in msg` block of `_parse_message`. -/
def parse_context (msg : Json) : Except PyErr (Option MessageContext) := do
  let hasCtx ← msg.hasKey "context"
  if hasCtx then
    let ctx ← msg.getItem "context"
    let f ← ctx.getItem "from"
    let i ← ctx.getItem "id"
    pure (some ⟨f, i⟩)
  else
    pure none

/-- `WebhookNotification._parse_message`. -/
def parse_message (msg : Json) : Except PyErr Message := do
  let context ← parse_context msg
  let i ← msg.getItem "id"
  let f ← msg.getItem "from"
  let ts ← msg.getItem "timestamp"
  let ty ← msg.get "type" (.str "")
  let content ← parse_content msg
  return { id := i, from_ := f, timestamp := ts, type := ty,
           content := content, context := context }

/-- The `if "conversation" in raw` block of `_parse_status`. -/
def parse_status_conversation (raw : Json) : Except PyErr (Option Conversation) := do
  let hasConv ← raw.hasKey "conversation"
  if hasConv then
    let conv ← raw.getItem "conversation"
    let i ← conv.getItem "id"
    let origin ← conv.getItem "origin"
    let oty ← origin.getItem "type"
    pure (some ⟨i, ⟨oty⟩⟩)
  else
    pure none

/-- The `if "pricing" in raw` block of `_parse_status`. -/
def parse_status_pricing (raw : Json) : Except PyErr (Option Pricing) := do
  let hasPricing ← raw.hasKey "pricing"
  if hasPricing then
    let p ← raw.getItem "pricing"
    let b ← p.getItem "billable"
    let pm ← p.getItem "pricing_model"
    let cat ← p.getItem "category"
    pure (some ⟨b, pm, cat⟩)
  else
    pure none

/-- The `if "errors" in raw` block of `_parse_status`. -/
def parse_status_errors (raw : Json) : Except PyErr (Option (List StatusError)) := do
  let hasErrors ← raw.hasKey "errors"
  if hasErrors then
    let errsVal ← raw.getItem "errors"
    let items ← errsVal.iterate
    let errs ← items.mapM fun e => do
      let c ← e.getItem "code"
      let t ← e.getItem "title"
      pure (⟨c, t⟩ : StatusError)
    pure (some errs)
  else
    pure none

/-- `WebhookNotification._parse_status`. -/
def parse_status (raw : Json) : Except PyErr Status := do
  let conversation ← parse_status_conversation raw
  let pricing ← parse_status_pricing raw
  let errors ← parse_status_errors raw
  let i ← raw.getItem "id"
  let st ← raw.getItem "status"
  let ts ← raw.getItem "timestamp"
  let rid ← raw.getItem "recipient_id"
  return { id := i, status := st, timestamp := ts, recipient_id := rid,
           conversation := conversation, pricing := pricing, errors := errors }

/-- One contact of the `contacts` comprehension in `from_dict`. -/
def parse_contact (c : Json) : Except PyErr WebhookContact := do
  let waId ← c.getItem "wa_id"
  let profile ← c.get "profile" (.obj [])
  let name ← profile.get "name" .null
  return { wa_id := waId, name := name }

/-- The body of the inner `for change in entry.get("changes", [])` loop of
`WebhookNotification.from_dict`. -/
def parse_change (change : Json) : Except PyErr WebhookNotification := do
  let value ← change.get "value" (.obj [])
  let meta ← value.get "metadata" (.obj [])
  let dpn ← meta.get "display_phone_number" (.str "")
  let pni ← meta.get "phone_number_id" (.str "")
  let contactsVal ← value.get "contacts" (.arr [])
  let contactItems ← contactsVal.iterate
  let contacts ← contactItems.mapM parse_contact
  let messagesVal ← value.get "messages" (.arr [])
  let messageItems ← messagesVal.iterate
  let messages ← messageItems.mapM parse_message
  let statusesVal ← value.get "statuses" (.arr [])
  let statusItems ← statusesVal.iterate
  let statuses ← statusItems.mapM parse_status
  return { metadata := ⟨dpn, pni⟩, contacts := contacts,
           messages := messages, statuses := statuses }

/-- `WebhookNotification.from_dict`: iterate entries, then changes, and
collect one notification per change. -/
def from_dict (data : Json) : Except PyErr (List WebhookNotification) := do
  let entriesVal ← data.get "entry" (.arr [])
  let entries ← entriesVal.iterate
  let perEntry ← entries.mapM fun entry => do
    let changesVal ← entry.get "changes" (.arr [])
    let changes ← changesVal.iterate
    changes.mapM parse_change
  return perEntry.flatten

end WebhookNotification


-- --- `_webhook/__init__.py`: signature verification. ---
-- `body` is the raw request body (a Python `bytes`, modelled as a list of
-- byte values), `signature` the `X-Hub-Signature-256` header (a Python
-- `str`), and `app_secret` the app secret's UTF-8 encoding (the code calls
-- `app_secret.encode()` before keying the HMAC).

-- SHA-256 over byte lists, word arithmetic on `Nat` modulo 2^32
-- (models `hashlib.sha256`).

def mask32 (x : Nat) : Nat := x % 4294967296

def add32 (a b : Nat) : Nat := (a + b) % 4294967296

def rotr32 (n x : Nat) : Nat := mask32 ((x >>> n) ||| (x <<< (32 - n)))

def not32 (x : Nat) : Nat := x ^^^ 4294967295

def bSig0 (x : Nat) : Nat := rotr32 2 x ^^^ rotr32 13 x ^^^ rotr32 22 x

def bSig1 (x : Nat) : Nat := rotr32 6 x ^^^ rotr32 11 x ^^^ rotr32 25 x

def sSig0 (x : Nat) : Nat := rotr32 7 x ^^^ rotr32 18 x ^^^ (x >>> 3)

def sSig1 (x : Nat) : Nat := rotr32 17 x ^^^ rotr32 19 x ^^^ (x >>> 10)

def ch32 (x y z : Nat) : Nat := (x &&& y) ^^^ (not32 x &&& z)

def maj32 (x y z : Nat) : Nat := (x &&& y) ^^^ (x &&& z) ^^^ (y &&& z)

/-- The 64 SHA-256 round constants. -/
def sha256K : List Nat :=
  [1116352408, 1899447441, 3049323471, 3921009573,
   961987163, 1508970993, 2453635748, 2870763221,
   3624381080, 310598401, 607225278, 1426881987,
   1925078388, 2162078206, 2614888103, 3248222580,
   3835390401, 4022224774, 264347078, 604807628,
   770255983, 1249150122, 1555081692, 1996064986,
   2554220882, 2821834349, 2952996808, 3210313671,
   3336571891, 3584528711, 113926993, 338241895,
   666307205, 773529912, 1294757372, 1396182291,
   1695183700, 1986661051, 2177026350, 2456956037,
   2730485921, 2820302411, 3259730800, 3345764771,
   3516065817, 3600352804, 4094571909, 275423344,
   430227734, 506948616, 659060556, 883997877,
   958139571, 1322822218, 1537002063, 1747873779,
   1955562222, 2024104815, 2227730452, 2361852424,
   2428436474, 2756734187, 3204031479, 3329325298]

/-- The SHA-256 initial hash state. -/
def sha256H0 : List Nat :=
  [1779033703, 3144134277, 1013904242, 2773480762,
   1359893119, 2600822924, 528734635, 1541459225]

/-- `x` as `n` big-endian bytes. -/
def toBytesBE (n x : Nat) : List Nat :=
  (List.range n).map fun i => (x >>> (8 * (n - 1 - i))) % 256

/-- SHA-256 padding: `0x80`, zeros to 56 mod 64, then the bit length as
eight big-endian bytes. -/
def sha256Pad (msg : List Nat) : List Nat :=
  let len := msg.length
  let zeros := (120 - ((len + 1) % 64)) % 64
  msg ++ [0x80] ++ List.replicate zeros 0 ++ toBytesBE 8 (8 * len)

/-- Big-endian bytes to 32-bit words. -/
def bytesToWords : List Nat → List Nat
  | b0 :: b1 :: b2 :: b3 :: rest =>
    ((b0 <<< 24) ||| (b1 <<< 16) ||| (b2 <<< 8) ||| b3) :: bytesToWords rest
  | _ => []

/-- Extend a 16-word block by `k` further message-schedule words. -/
def sha256Extend (w : List Nat) : Nat → List Nat
  | 0 => w
  | k + 1 =>
    let i := w.length
    let nw := add32 (add32 (w.getD (i - 16) 0) (sSig0 (w.getD (i - 15) 0)))
                    (add32 (w.getD (i - 7) 0) (sSig1 (w.getD (i - 2) 0)))
    sha256Extend (w ++ [nw]) k

/-- One SHA-256 round on the working variables `[a,b,c,d,e,f,g,h]`. -/
def sha256Round (v : List Nat) (k w : Nat) : List Nat :=
  let a := v.getD 0 0
  let b := v.getD 1 0
  let c := v.getD 2 0
  let d := v.getD 3 0
  let e := v.getD 4 0
  let f := v.getD 5 0
  let g := v.getD 6 0
  let h := v.getD 7 0
  let t1 := add32 (add32 (add32 h (bSig1 e)) (add32 (ch32 e f g) k)) w
  let t2 := add32 (bSig0 a) (maj32 a b c)
  [add32 t1 t2, a, b, c, add32 d t1, e, f, g]

/-- Compress one 16-word block into the state. -/
def sha256Compress (state block : List Nat) : List Nat :=
  let w := sha256Extend block 48
  let v := (sha256K.zip w).foldl (fun v kw => sha256Round v kw.1 kw.2) state
  (state.zip v).map fun p => add32 p.1 p.2

/-- Compress `n` successive 16-word blocks. -/
def sha256Blocks : Nat → List Nat → List Nat → List Nat
  | 0, st, _ => st
  | n + 1, st, ws => sha256Blocks n (sha256Compress st (ws.take 16)) (ws.drop 16)

/-- SHA-256 digest (32 bytes) of a byte list; models
`hashlib.sha256(msg).digest()`. -/
def sha256 (msg : List Nat) : List Nat :=
  let words := bytesToWords (sha256Pad msg)
  let st := sha256Blocks (words.length / 16) sha256H0 words
  (st.map (toBytesBE 4)).flatten

/-- HMAC-SHA256 (block size 64); models `hmac.new(key, msg, hashlib.sha256)`. -/
def hmacSha256 (key msg : List Nat) : List Nat :=
  let k0 := if key.length > 64 then sha256 key else key
  let k := k0 ++ List.replicate (64 - k0.length) 0
  let ipad := k.map fun b => b ^^^ 0x36
  let opad := k.map fun b => b ^^^ 0x5c
  sha256 (opad ++ sha256 (ipad ++ msg))

def hexChar (n : Nat) : Char := "0123456789abcdef".data.getD n '0'

/-- Lowercase hex of a byte list; models `.hexdigest()`. -/
def bytesToHex (bs : List Nat) : String :=
  String.mk ((bs.map fun b => [hexChar (b / 16 % 16), hexChar (b % 16)]).flatten)

/-- `hmac.new(app_secret.encode(), body, hashlib.sha256).hexdigest()`. -/
def hmacSha256Hex (key msg : List Nat) : String := bytesToHex (hmacSha256 key msg)

/-- The outcomes of `verify_signature`: the two
`WebhookVerificationError`s it raises, plus the `TypeError` that
`hmac.compare_digest` raises on non-ASCII `str` input. -/
inductive VerifyErr where
  | malformedSignature : VerifyErr
  | signatureMismatch : VerifyErr
  | typeError : VerifyErr
deriving DecidableEq

def isAsciiStr (s : String) : Bool := s.data.all fun c => c.toNat < 128

/-- Python `hmac.compare_digest` on two `str` arguments: both must be
ASCII-only (otherwise `TypeError`); timing aside, it returns whether the
strings are equal. -/
def compare_digest (a b : String) : Except VerifyErr Bool :=
  if isAsciiStr a && isAsciiStr b then .ok (decide (a = b)) else .error .typeError

/-- Python `signature.startswith("sha256=")` (character-level view of the
`str`). -/
def strStartsWith (s pre : String) : Bool := pre.data.isPrefixOf s.data

/-- Python `signature.removeprefix(pre)`. -/
def strRemovePrefix (s pre : String) : String :=
  if strStartsWith s pre then String.mk (s.data.drop pre.data.length) else s

/-- `verify_signature` from `_webhook/__init__.py`: reject a signature
without the `sha256=` prefix as malformed, else HMAC the body with the
secret and compare digests. -/
def verify_signature (body : List Nat) (signature : String) (app_secret : List Nat) :
    Except VerifyErr Unit :=
  if strStartsWith signature "sha256=" then
    let expected := hmacSha256Hex app_secret body
    let received := strRemovePrefix signature "sha256="
    match compare_digest expected received with
    | .error e => .error e
    | .ok true => .ok ()
    | .ok false => .error .signatureMismatch
  else .error .malformedSignature


-- --- A model of `json.loads` for `WebhookHandler.handle`. ---
-- Modelled subset of the stdlib parser: the body must be ASCII (real
-- `json.loads` accepts any UTF-8) and numbers must be integers (floats,
-- exponents, `NaN`/`Infinity` and `\\u` escapes are not modelled).  On
-- every input the model accepts it agrees with `json.loads`; every input
-- outside the subset is rejected with `valueError` (never mis-parsed).

/-- Skip JSON whitespace (space, tab, newline, carriage return). -/
def skipWs : List Char → List Char
  | c :: rest =>
    if c = ' ' ∨ c = '\t' ∨ c = '\n' ∨ c = '\r' then skipWs rest else c :: rest
  | [] => []

/-- Parse the remainder of a JSON string (after the opening quote),
accumulating characters in reverse. -/
def parseJStringAux : List Char → List Char → Except PyErr (String × List Char)
  | [], _ => .error .valueError
  | '"' :: rest, acc => .ok (String.mk acc.reverse, rest)
  | '\\' :: esc :: rest, acc =>
    if esc = '"' ∨ esc = '\\' ∨ esc = '/' then parseJStringAux rest (esc :: acc)
    else if esc = 'b' then parseJStringAux rest (Char.ofNat 8 :: acc)
    else if esc = 'f' then parseJStringAux rest (Char.ofNat 12 :: acc)
    else if esc = 'n' then parseJStringAux rest ('\n' :: acc)
    else if esc = 'r' then parseJStringAux rest ('\r' :: acc)
    else if esc = 't' then parseJStringAux rest ('\t' :: acc)
    else .error .valueError
  | c :: rest, acc =>
    if c.toNat < 32 ∨ c = '\\' then .error .valueError
    else parseJStringAux rest (c :: acc)

/-- Parse a JSON integer (leading-zero rule as in the JSON grammar;
fractions and exponents are outside the modelled subset). -/
def parseJNumber (cs : List Char) : Except PyErr (Json × List Char) :=
  let p := match cs with
    | '-' :: rest => (true, rest)
    | _ => (false, cs)
  let ds := p.2.takeWhile (·.isDigit)
  let rest := p.2.dropWhile (·.isDigit)
  if ds = [] then .error .valueError
  else if ds.length > 1 ∧ ds.headD '0' = '0' then .error .valueError
  else
    match rest with
    | '.' :: _ => .error .valueError
    | 'e' :: _ => .error .valueError
    | 'E' :: _ => .error .valueError
    | _ =>
      let n : Nat := ds.foldl (fun a c => a * 10 + (c.toNat - 48)) 0
      .ok (.num (if p.1 then -(n : Int) else (n : Int)), rest)

/-- Python dict assignment `d[k] = v`: update in place if present, else
append. -/
def insertKey : List (String × Json) → String → Json → List (String × Json)
  | [], k, v => [(k, v)]
  | (k0, v0) :: rest, k, v =>
    if k0 = k then (k0, v) :: rest else (k0, v0) :: insertKey rest k v

mutual

/-- Parse one JSON value (fuelled recursive descent). -/
def parseJValue : Nat → List Char → Except PyErr (Json × List Char)
  | 0, _ => .error .valueError
  | fuel + 1, cs =>
    match skipWs cs with
    | 'n' :: 'u' :: 'l' :: 'l' :: rest => .ok (.null, rest)
    | 't' :: 'r' :: 'u' :: 'e' :: rest => .ok (.bool true, rest)
    | 'f' :: 'a' :: 'l' :: 's' :: 'e' :: rest => .ok (.bool false, rest)
    | '"' :: rest =>
      match parseJStringAux rest [] with
      | .error e => .error e
      | .ok (s, rest2) => .ok (.str s, rest2)
    | '[' :: rest =>
      match skipWs rest with
      | ']' :: rest2 => .ok (.arr [], rest2)
      | rest2 => parseJArrayItems fuel rest2 []
    | '{' :: rest =>
      match skipWs rest with
      | '}' :: rest2 => .ok (.obj [], rest2)
      | rest2 => parseJObjItems fuel rest2 []
    | rest => parseJNumber rest

/-- Parse the elements of a non-empty JSON array, after `[`. -/
def parseJArrayItems : Nat → List Char → List Json → Except PyErr (Json × List Char)
  | 0, _, _ => .error .valueError
  | fuel + 1, cs, acc =>
    match parseJValue fuel cs with
    | .error e => .error e
    | .ok (v, rest) =>
      match skipWs rest with
      | ',' :: rest2 => parseJArrayItems fuel rest2 (acc ++ [v])
      | ']' :: rest2 => .ok (.arr (acc ++ [v]), rest2)
      | _ => .error .valueError

/-- Parse the members of a non-empty JSON object, after `{`. -/
def parseJObjItems : Nat → List Char → List (String × Json) → Except PyErr (Json × List Char)
  | 0, _, _ => .error .valueError
  | fuel + 1, cs, acc =>
    match skipWs cs with
    | '"' :: rest =>
      match parseJStringAux rest [] with
      | .error e => .error e
      | .ok (k, rest2) =>
        match skipWs rest2 with
        | ':' :: rest3 =>
          match parseJValue fuel rest3 with
          | .error e => .error e
          | .ok (v, rest4) =>
            match skipWs rest4 with
            | ',' :: rest5 => parseJObjItems fuel rest5 (insertKey acc k v)
            | '}' :: rest5 => .ok (.obj (insertKey acc k v), rest5)
            | _ => .error .valueError
        | _ => .error .valueError
    | _ => .error .valueError

end

/-- `json.loads(body)` on the raw request body. -/
def jsonLoads (body : List Nat) : Except PyErr Json :=
  if body.all (· < 128) then
    let cs := body.map Char.ofNat
    match parseJValue (cs.length + 1) cs with
    | .error e => .error e
    | .ok (v, rest) => if skipWs rest = [] then .ok v else .error .valueError
  else .error .valueError

-- --- `WebhookHandler.handle`. ---

/-- One callback invocation performed by `WebhookHandler.handle`: which
registered callback was awaited and the `(notification, event)` arguments
it received (the first argument is always the handler's constant
`_client`). -/
inductive HandleEvent where
  | message (n : WebhookNotification) (m : Message) : HandleEvent
  | status (n : WebhookNotification) (s : Status) : HandleEvent
deriving DecidableEq

/-- An exception escaping `WebhookHandler.handle`. -/
inductive HandleErr where
  | verification (e : VerifyErr) : HandleErr
  | py (e : PyErr) : HandleErr
deriving DecidableEq

/-- The dispatch loop of `WebhookHandler.handle`, as written: for each
notification in order, if a message callback is registered await it on
each message in payload order, then likewise for statuses.  `on_message` /
`on_status` state whether the corresponding callback is not `None`. -/
def handleLoop (on_message on_status : Bool) (ns : List WebhookNotification) :
    List HandleEvent :=
  ns.foldl
    (fun acc n =>
      let acc1 :=
        if on_message then n.messages.foldl (fun a m => a ++ [HandleEvent.message n m]) acc
        else acc
      if on_status then n.statuses.foldl (fun a s => a ++ [HandleEvent.status n s]) acc1
      else acc1)
    []

/-- `WebhookHandler.handle`: verify the signature, `json.loads` the body,
parse notifications, dispatch.  The result is the ordered trace of
callback invocations. -/
def WebhookHandler.handle (on_message on_status : Bool) (app_secret : List Nat)
    (body : List Nat) (signature : String) : Except HandleErr (List HandleEvent) :=
  match verify_signature body signature app_secret with
  | .error e => .error (.verification e)
  | .ok () =>
    match jsonLoads body with
    | .error e => .error (.py e)
    | .ok data =>
      match WebhookNotification.from_dict data with
      | .error e => .error (.py e)
      | .ok notifications => .ok (handleLoop on_message on_status notifications)

/-- The dispatch order as the spec states it: per notification, the
message events in payload order (when a message callback is registered),
then the status events in payload order (when a status callback is
registered); unregistered categories are dropped. -/
def specEventOrder (on_message on_status : Bool) (ns : List WebhookNotification) :
    List HandleEvent :=
  (ns.map fun n =>
    (if on_message then n.messages.map (HandleEvent.message n) else []) ++
    (if on_status then n.statuses.map (HandleEvent.status n) else [])).flatten


-- --- Well-formedness: sufficient shape conditions under which each
-- parser of `_types.py` returns instead of raising.  These mirror the
-- key accesses the code performs. ---

/-- The dict has the key. -/
def hasK (kvs : List (String × Json)) (k : String) : Bool :=
  (Json.lookup kvs k).isSome

/-- Key `k` maps to a dict carrying all of `fields`. -/
def subObjAll (kvs : List (String × Json)) (k : String) (fields : List String) : Bool :=
  match Json.lookup kvs k with
  | some (.obj skvs) => fields.all fun f => hasK skvs f
  | _ => false

/-- Shape under which `_parse_content` returns: each recognized type must
carry its (equally named) sub-object with the fields the code reads;
unrecognized types need nothing (they degrade to `Unsupported`). -/
def contentWF (kvs : List (String × Json)) : Bool :=
  match (Json.lookup kvs "type").getD (.str "") with
  | .str t =>
    if t = "text" then subObjAll kvs "text" ["body"]
    else if t = "image" ∨ t = "video" ∨ t = "audio" ∨ t = "document" ∨ t = "sticker" then
      subObjAll kvs t ["id", "mime_type", "sha256"]
    else if t = "location" then subObjAll kvs "location" ["latitude", "longitude"]
    else if t = "button" then subObjAll kvs "button" ["payload", "text"]
    else if t = "interactive" then
      match Json.lookup kvs "interactive" with
      | some (.obj ikvs) =>
        (match (Json.lookup ikvs "type").getD (.str "") with
         | .str it =>
           if it = "button_reply" then subObjAll ikvs "button_reply" ["id", "title"]
           else if it = "list_reply" then subObjAll ikvs "list_reply" ["id", "title"]
           else true
         | _ => true)
      | _ => false
    else if t = "reaction" then subObjAll kvs "reaction" ["message_id", "emoji"]
    else true
  | _ => true

/-- Shape under which the `context` block returns. -/
def ctxWF (kvs : List (String × Json)) : Bool :=
  match Json.lookup kvs "context" with
  | none => true
  | some (.obj ckvs) => hasK ckvs "from" && hasK ckvs "id"
  | some _ => false

/-- Shape under which `_parse_message` returns. -/
def messageWF (j : Json) : Bool :=
  match j with
  | .obj kvs =>
    ctxWF kvs &&
    (hasK kvs "id" && hasK kvs "from" && hasK kvs "timestamp" && contentWF kvs)
  | _ => false

/-- Shape under which the `conversation` block returns. -/
def convWF (kvs : List (String × Json)) : Bool :=
  match Json.lookup kvs "conversation" with
  | none => true
  | some (.obj ckvs) =>
    hasK ckvs "id" &&
    (match Json.lookup ckvs "origin" with
     | some (.obj okvs) => hasK okvs "type"
     | _ => false)
  | some _ => false

/-- Shape under which the `pricing` block returns. -/
def pricingWF (kvs : List (String × Json)) : Bool :=
  match Json.lookup kvs "pricing" with
  | none => true
  | some (.obj pkvs) =>
    hasK pkvs "billable" && hasK pkvs "pricing_model" && hasK pkvs "category"
  | some _ => false

/-- Shape under which the `errors` block returns. -/
def errorsWF (kvs : List (String × Json)) : Bool :=
  match Json.lookup kvs "errors" with
  | none => true
  | some (.arr es) =>
    es.all fun e =>
      match e with
      | .obj ekvs => hasK ekvs "code" && hasK ekvs "title"
      | _ => false
  | some _ => false

/-- Shape under which `_parse_status` returns. -/
def statusWF (j : Json) : Bool :=
  match j with
  | .obj kvs =>
    convWF kvs && pricingWF kvs && errorsWF kvs &&
    (hasK kvs "id" && hasK kvs "status" && hasK kvs "timestamp" && hasK kvs "recipient_id")
  | _ => false

/-- Shape under which one `contacts` entry parses. -/
def contactWF (j : Json) : Bool :=
  match j with
  | .obj kvs =>
    hasK kvs "wa_id" &&
    (match Json.lookup kvs "profile" with
     | none => true
     | some (.obj _) => true
     | some _ => false)
  | _ => false

/-- Shape under which one `changes` entry parses. -/
def changeWF (j : Json) : Bool :=
  match j with
  | .obj kvs =>
    match (Json.lookup kvs "value").getD (.obj []) with
    | .obj vkvs =>
      (match (Json.lookup vkvs "metadata").getD (.obj []) with
       | .obj _ => true
       | _ => false) &&
      (match (Json.lookup vkvs "contacts").getD (.arr []) with
       | .arr cs => cs.all contactWF
       | _ => false) &&
      (match (Json.lookup vkvs "messages").getD (.arr []) with
       | .arr ms => ms.all messageWF
       | _ => false) &&
      (match (Json.lookup vkvs "statuses").getD (.arr []) with
       | .arr ss => ss.all statusWF
       | _ => false)
    | _ => false
  | _ => false

/-- Shape under which one `entry` parses. -/
def entryWF (j : Json) : Bool :=
  match j with
  | .obj kvs =>
    match (Json.lookup kvs "changes").getD (.arr []) with
    | .arr cs => cs.all changeWF
    | _ => false
  | _ => false

/-- Shape under which `from_dict` returns: a dict whose `entry` value (a
list when present) holds well-formed entries. -/
def payloadWF (j : Json) : Bool :=
  match j with
  | .obj kvs =>
    match (Json.lookup kvs "entry").getD (.arr []) with
    | .arr es => es.all entryWF
    | _ => false
  | _ => false

/-- The message `type` tags `_parse_content` recognizes; for each, the
sub-object the code reads lives under the key of the same name. -/
def recognizedTypes : List String :=
  ["text", "image", "video", "audio", "document", "sticker",
   "location", "button", "interactive", "reaction"]

/-- The `context` key, when present, maps to a dict (of any contents). -/
def ctxIsDict (kvs : List (String × Json)) : Bool :=
  match Json.lookup kvs "context" with
  | none => true
  | some (.obj _) => true
  | some _ => false

/-- The bytes of an ASCII string (to write request bodies readably). -/
def strBytes (s : String) : List Nat := s.data.map Char.toNat

/-- A payload whose single change value carries exactly one message. -/
def payloadWithMessage (msg : Json) : Json :=
  .obj [("entry", .arr [.obj [("changes", .arr [.obj [("value",
    .obj [("messages", .arr [msg])])]])]])]

end WhatsApp

namespace WhatsApp

theorem lookup_isSome_any (kvs : List (String × Json)) (k : String) :
    (Json.lookup kvs k).isSome = kvs.any fun p => p.1 == k := by
  induction kvs with
  | nil => rfl
  | cons p rest ih =>
    obtain ⟨k0, v0⟩ := p
    by_cases h : k0 = k <;> simp [Json.lookup, h, ih]

theorem hasKey_obj (kvs : List (String × Json)) (k : String) :
    Json.hasKey (.obj kvs) k = .ok (hasK kvs k) := by
  simp [Json.hasKey, hasK, lookup_isSome_any]

theorem getItem_ok {kvs : List (String × Json)} {k : String} {v : Json}
    (h : Json.lookup kvs k = some v) : Json.getItem (.obj kvs) k = .ok v := by
  simp [Json.getItem, h]

theorem get_obj (kvs : List (String × Json)) (k : String) (d : Json) :
    Json.get (.obj kvs) k d = .ok ((Json.lookup kvs k).getD d) := rfl

theorem subObjAll_elim {kvs : List (String × Json)} {k : String} {fields : List String}
    (h : subObjAll kvs k fields = true) :
    ∃ skvs, Json.lookup kvs k = some (.obj skvs) ∧
      ∀ f ∈ fields, ∃ v, Json.lookup skvs f = some v := by
  unfold subObjAll at h
  split at h
  case _ skvs hk =>
    refine ⟨skvs, hk, ?_⟩
    intro f hf
    have := (List.all_eq_true.mp h) f hf
    simpa [hasK, Option.isSome_iff_exists] using this
  case _ => exact absurd h (by simp)

theorem parse_content_ok {kvs : List (String × Json)} (h : contentWF kvs = true) :
    ∃ c, WebhookNotification.parse_content (.obj kvs) = .ok c := by
  unfold contentWF at h
  split at h
  case _ t ht =>
    by_cases h1 : t = "text"
    · rw [if_pos h1] at h; subst h1
      obtain ⟨skvs, hk, hf⟩ := subObjAll_elim h
      obtain ⟨b, hb⟩ := hf "body" (by simp)
      exact ⟨.text b, by simp [WebhookNotification.parse_content, get_obj, ht, getItem_ok hk,
        getItem_ok hb, Bind.bind, Except.bind, Pure.pure, Except.pure]⟩
    · rw [if_neg h1] at h
      by_cases h2 : t = "image" ∨ t = "video" ∨ t = "audio" ∨ t = "document" ∨ t = "sticker"
      · rw [if_pos h2] at h
        obtain ⟨skvs, hk, hf⟩ := subObjAll_elim h
        obtain ⟨vi, hvi⟩ := hf "id" (by simp)
        obtain ⟨vm, hvm⟩ := hf "mime_type" (by simp)
        obtain ⟨vs, hvs⟩ := hf "sha256" (by simp)
        refine ⟨.media vi vm vs ((Json.lookup skvs "caption").getD .null), ?_⟩
        rcases h2 with h2 | h2 | h2 | h2 | h2 <;> subst h2 <;>
          simp [WebhookNotification.parse_content, get_obj, ht, getItem_ok hk,
            getItem_ok hvi, getItem_ok hvm, getItem_ok hvs,
            Bind.bind, Except.bind, Pure.pure, Except.pure]
      · rw [if_neg h2] at h
        push_neg at h2
        obtain ⟨h2a, h2b, h2c, h2d, h2e⟩ := h2
        by_cases h3 : t = "location"
        · rw [if_pos h3] at h; subst h3
          obtain ⟨skvs, hk, hf⟩ := subObjAll_elim h
          obtain ⟨la, hla⟩ := hf "latitude" (by simp)
          obtain ⟨lo, hlo⟩ := hf "longitude" (by simp)
          refine ⟨.location la lo ((Json.lookup skvs "name").getD .null)
            ((Json.lookup skvs "address").getD .null), ?_⟩
          simp [WebhookNotification.parse_content, get_obj, ht, getItem_ok hk,
            getItem_ok hla, getItem_ok hlo, Bind.bind, Except.bind, Pure.pure, Except.pure]
        · rw [if_neg h3] at h
          by_cases h4 : t = "button"
          · rw [if_pos h4] at h; subst h4
            obtain ⟨skvs, hk, hf⟩ := subObjAll_elim h
            obtain ⟨p, hp⟩ := hf "payload" (by simp)
            obtain ⟨tx, htx⟩ := hf "text" (by simp)
            refine ⟨.buttonReply p tx, ?_⟩
            simp [WebhookNotification.parse_content, get_obj, ht, getItem_ok hk,
              getItem_ok hp, getItem_ok htx, Bind.bind, Except.bind, Pure.pure, Except.pure]
          · rw [if_neg h4] at h
            by_cases h5 : t = "interactive"
            · rw [if_pos h5] at h; subst h5
              split at h
              case _ ikvs hik =>
                split at h
                case _ it hit =>
                  by_cases hi1 : it = "button_reply"
                  · rw [if_pos hi1] at h; subst hi1
                    obtain ⟨skvs, hk, hf⟩ := subObjAll_elim h
                    obtain ⟨vi, hvi⟩ := hf "id" (by simp)
                    obtain ⟨vt, hvt⟩ := hf "title" (by simp)
                    refine ⟨.buttonReply vi vt, ?_⟩
                    simp [WebhookNotification.parse_content, get_obj, ht, getItem_ok hik,
                      getItem_ok hk, getItem_ok hvi, getItem_ok hvt, hit,
                      Bind.bind, Except.bind, Pure.pure, Except.pure]
                  · rw [if_neg hi1] at h
                    by_cases hi2 : it = "list_reply"
                    · rw [if_pos hi2] at h; subst hi2
                      obtain ⟨skvs, hk, hf⟩ := subObjAll_elim h
                      obtain ⟨vi, hvi⟩ := hf "id" (by simp)
                      obtain ⟨vt, hvt⟩ := hf "title" (by simp)
                      refine ⟨.listReply vi vt ((Json.lookup skvs "description").getD .null), ?_⟩
                      simp [WebhookNotification.parse_content, get_obj, ht, getItem_ok hik,
                        getItem_ok hk, getItem_ok hvi, getItem_ok hvt, hit, hi1,
                        Bind.bind, Except.bind, Pure.pure, Except.pure]
                    · refine ⟨.unsupported (.obj kvs), ?_⟩
                      simp [WebhookNotification.parse_content, get_obj, ht, getItem_ok hik,
                        hit, hi1, hi2, Bind.bind, Except.bind, Pure.pure, Except.pure]
                case _ iother hne =>
                  refine ⟨.unsupported (.obj kvs), ?_⟩
                  have h6 : ∀ x : String,
                      ((Json.lookup ikvs "type").getD (Json.str "") = Json.str x) ↔ False :=
                    fun x => ⟨fun hc => hne x hc, False.elim⟩
                  simp [WebhookNotification.parse_content, get_obj, ht, getItem_ok hik, h6,
                    Bind.bind, Except.bind, Pure.pure, Except.pure]
              case _ => exact absurd h (by simp)
            · rw [if_neg h5] at h
              by_cases h7 : t = "reaction"
              · rw [if_pos h7] at h; subst h7
                obtain ⟨skvs, hk, hf⟩ := subObjAll_elim h
                obtain ⟨vm, hvm⟩ := hf "message_id" (by simp)
                obtain ⟨ve, hve⟩ := hf "emoji" (by simp)
                refine ⟨.reaction vm ve, ?_⟩
                simp [WebhookNotification.parse_content, get_obj, ht, getItem_ok hk,
                  getItem_ok hvm, getItem_ok hve, Bind.bind, Except.bind, Pure.pure, Except.pure]
              · refine ⟨.unsupported (.obj kvs), ?_⟩
                simp [WebhookNotification.parse_content, get_obj, ht, h1, h2a, h2b, h2c, h2d,
                  h2e, h3, h4, h5, h7, Bind.bind, Except.bind, Pure.pure, Except.pure]
  case _ other hne =>
    refine ⟨.unsupported (.obj kvs), ?_⟩
    have h6 : ∀ x : String,
        ((Json.lookup kvs "type").getD (Json.str "") = Json.str x) ↔ False :=
      fun x => ⟨fun hc => hne x hc, False.elim⟩
    simp [WebhookNotification.parse_content, get_obj, h6,
      Bind.bind, Except.bind, Pure.pure, Except.pure]

end WhatsApp

namespace WhatsApp

theorem exbind_ok {ε α β : Type} (a : α) (f : α → Except ε β) :
    (Except.ok a : Except ε α) >>= f = f a := rfl

theorem exbind_err {ε α β : Type} (e : ε) (f : α → Except ε β) :
    (Except.error e : Except ε α) >>= f = .error e := rfl

theorem expure {ε α : Type} (a : α) : (pure a : Except ε α) = .ok a := rfl

theorem if_cond_true {α : Type} (a b : α) : (if true = true then a else b) = a := rfl

theorem if_cond_false {α : Type} (a b : α) : (if false = true then a else b) = b := rfl

theorem parse_context_ok {kvs : List (String × Json)} (h : ctxWF kvs = true) :
    ∃ co, WebhookNotification.parse_context (.obj kvs) = .ok co ∧
      co.isSome = hasK kvs "context" := by
  unfold ctxWF at h
  split at h
  case _ hn =>
    exact ⟨none, by simp [WebhookNotification.parse_context, hasKey_obj, hasK, hn,
      Bind.bind, Except.bind, Pure.pure, Except.pure], by simp [hasK, hn]⟩
  case _ ckvs hs =>
    rw [Bool.and_eq_true] at h
    obtain ⟨hf, hi⟩ := h
    obtain ⟨vf, hvf⟩ := Option.isSome_iff_exists.mp (by simpa [hasK] using hf)
    obtain ⟨vi, hvi⟩ := Option.isSome_iff_exists.mp (by simpa [hasK] using hi)
    exact ⟨some ⟨vf, vi⟩, by simp [WebhookNotification.parse_context, hasKey_obj, hasK, hs,
      getItem_ok hs, getItem_ok hvf, getItem_ok hvi,
      Bind.bind, Except.bind, Pure.pure, Except.pure], by simp [hasK, hs]⟩
  case _ => exact absurd h (by simp)

theorem parse_message_ok {j : Json} (h : messageWF j = true) :
    ∃ m, WebhookNotification.parse_message j = .ok m := by
  rcases j with _ | b | n | t | xs | kvs <;> simp [messageWF, Bool.and_eq_true, and_assoc] at h
  obtain ⟨hctx, hid, hfrom, hts, hcont⟩ := h
  obtain ⟨co, hco, _⟩ := parse_context_ok hctx
  obtain ⟨vi, hvi⟩ := Option.isSome_iff_exists.mp (by simpa [hasK] using hid)
  obtain ⟨vf, hvf⟩ := Option.isSome_iff_exists.mp (by simpa [hasK] using hfrom)
  obtain ⟨vt, hvt⟩ := Option.isSome_iff_exists.mp (by simpa [hasK] using hts)
  obtain ⟨c, hc⟩ := parse_content_ok hcont
  refine ⟨⟨vi, vf, vt, (Json.lookup kvs "type").getD (.str ""), c, co⟩, ?_⟩
  simp only [WebhookNotification.parse_message, hco, exbind_ok, getItem_ok hvi,
    getItem_ok hvf, getItem_ok hvt, get_obj, hc, expure]

theorem parse_status_conversation_ok {kvs : List (String × Json)} (h : convWF kvs = true) :
    ∃ co, WebhookNotification.parse_status_conversation (.obj kvs) = .ok co ∧
      co.isSome = hasK kvs "conversation" := by
  unfold convWF at h
  split at h
  case _ hn =>
    exact ⟨none, by simp [WebhookNotification.parse_status_conversation, hasKey_obj, hasK, hn,
      Bind.bind, Except.bind, Pure.pure, Except.pure], by simp [hasK, hn]⟩
  case _ ckvs hs =>
    rw [Bool.and_eq_true] at h
    obtain ⟨hid, hor⟩ := h
    obtain ⟨vi, hvi⟩ := Option.isSome_iff_exists.mp (by simpa [hasK] using hid)
    split at hor
    case _ okvs horig =>
      obtain ⟨vt, hvt⟩ := Option.isSome_iff_exists.mp (by simpa [hasK] using hor)
      exact ⟨some ⟨vi, ⟨vt⟩⟩, by simp [WebhookNotification.parse_status_conversation,
        hasKey_obj, hasK, hs, getItem_ok hs, getItem_ok hvi, getItem_ok horig, getItem_ok hvt,
        Bind.bind, Except.bind, Pure.pure, Except.pure], by simp [hasK, hs]⟩
    case _ => exact absurd hor (by simp)
  case _ => exact absurd h (by simp)

theorem parse_status_pricing_ok {kvs : List (String × Json)} (h : pricingWF kvs = true) :
    ∃ po, WebhookNotification.parse_status_pricing (.obj kvs) = .ok po ∧
      po.isSome = hasK kvs "pricing" := by
  unfold pricingWF at h
  split at h
  case _ hn =>
    exact ⟨none, by simp [WebhookNotification.parse_status_pricing, hasKey_obj, hasK, hn,
      Bind.bind, Except.bind, Pure.pure, Except.pure], by simp [hasK, hn]⟩
  case _ pkvs hs =>
    simp only [Bool.and_eq_true, and_assoc] at h
    obtain ⟨hb, hpm, hcat⟩ := h
    obtain ⟨vb, hvb⟩ := Option.isSome_iff_exists.mp (by simpa [hasK] using hb)
    obtain ⟨vm, hvm⟩ := Option.isSome_iff_exists.mp (by simpa [hasK] using hpm)
    obtain ⟨vc, hvc⟩ := Option.isSome_iff_exists.mp (by simpa [hasK] using hcat)
    exact ⟨some ⟨vb, vm, vc⟩, by simp [WebhookNotification.parse_status_pricing,
      hasKey_obj, hasK, hs, getItem_ok hs, getItem_ok hvb, getItem_ok hvm, getItem_ok hvc,
      Bind.bind, Except.bind, Pure.pure, Except.pure], by simp [hasK, hs]⟩
  case _ => exact absurd h (by simp)

theorem mapM_ok {α β : Type} {f : α → Except PyErr β} {xs : List α}
    (h : ∀ x ∈ xs, ∃ y, f x = .ok y) : ∃ ys, xs.mapM f = .ok ys := by
  induction xs with
  | nil => exact ⟨[], rfl⟩
  | cons x rest ih =>
    obtain ⟨y, hy⟩ := h x (by simp)
    obtain ⟨ys, hys⟩ := ih fun a ha => h a (by simp [ha])
    refine ⟨y :: ys, ?_⟩
    rw [List.mapM_cons, hy, hys]
    rfl

theorem parse_status_errors_ok {kvs : List (String × Json)} (h : errorsWF kvs = true) :
    ∃ eo, WebhookNotification.parse_status_errors (.obj kvs) = .ok eo ∧
      eo.isSome = hasK kvs "errors" := by
  unfold errorsWF at h
  split at h
  case _ hn =>
    exact ⟨none, by simp [WebhookNotification.parse_status_errors, hasKey_obj, hasK, hn,
      Bind.bind, Except.bind, Pure.pure, Except.pure], by simp [hasK, hn]⟩
  case _ es hs =>
    have hall : ∀ e ∈ es, ∃ y, (fun e => do
        let c ← Json.getItem e "code"
        let t ← Json.getItem e "title"
        pure (⟨c, t⟩ : StatusError)) e = Except.ok y := by
      intro e he
      have := List.all_eq_true.mp h e he
      rcases e with _ | b | n | t | xs | ekvs <;> simp at this
      obtain ⟨hc, ht⟩ := this
      obtain ⟨vc, hvc⟩ := Option.isSome_iff_exists.mp (by simpa [hasK] using hc)
      obtain ⟨vt, hvt⟩ := Option.isSome_iff_exists.mp (by simpa [hasK] using ht)
      exact ⟨⟨vc, vt⟩, by simp only [getItem_ok hvc, getItem_ok hvt, exbind_ok, expure]⟩
    obtain ⟨errs, herrs⟩ := mapM_ok hall
    have hk : hasK kvs "errors" = true := by simp [hasK, hs]
    refine ⟨some errs, ?_, by simp [hasK, hs]⟩
    simp only [expure] at herrs
    simp only [WebhookNotification.parse_status_errors, hasKey_obj, hk, exbind_ok,
      eq_self_iff_true, if_true, if_cond_true, getItem_ok hs, Json.iterate, herrs, expure]
  case _ => exact absurd h (by simp)

theorem parse_status_ok {kvs : List (String × Json)} (h : statusWF (.obj kvs) = true) :
    ∃ st : Status, WebhookNotification.parse_status (.obj kvs) = .ok st ∧
      st.conversation.isSome = hasK kvs "conversation" ∧
      st.pricing.isSome = hasK kvs "pricing" ∧
      st.errors.isSome = hasK kvs "errors" := by
  simp only [statusWF, Bool.and_eq_true, and_assoc] at h
  obtain ⟨hconv, hpr, herr, hid, hst, hts, hrid⟩ := h
  obtain ⟨co, hco, hcoS⟩ := parse_status_conversation_ok hconv
  obtain ⟨po, hpo, hpoS⟩ := parse_status_pricing_ok hpr
  obtain ⟨eo, heo, heoS⟩ := parse_status_errors_ok herr
  obtain ⟨vi, hvi⟩ := Option.isSome_iff_exists.mp (by simpa [hasK] using hid)
  obtain ⟨vs, hvs⟩ := Option.isSome_iff_exists.mp (by simpa [hasK] using hst)
  obtain ⟨vt, hvt⟩ := Option.isSome_iff_exists.mp (by simpa [hasK] using hts)
  obtain ⟨vr, hvr⟩ := Option.isSome_iff_exists.mp (by simpa [hasK] using hrid)
  refine ⟨⟨vi, vs, vt, vr, co, po, eo⟩, ?_, hcoS, hpoS, heoS⟩
  simp only [WebhookNotification.parse_status, hco, hpo, heo, exbind_ok, getItem_ok hvi,
    getItem_ok hvs, getItem_ok hvt, getItem_ok hvr, expure]

theorem parse_contact_ok {j : Json} (h : contactWF j = true) :
    ∃ c, WebhookNotification.parse_contact j = .ok c := by
  rcases j with _ | b | n | t | xs | kvs <;> simp [contactWF, Bool.and_eq_true] at h
  obtain ⟨hwa, hprof⟩ := h
  obtain ⟨vw, hvw⟩ := Option.isSome_iff_exists.mp (by simpa [hasK] using hwa)
  split at hprof
  case _ hn =>
    exact ⟨⟨vw, .null⟩, by simp [WebhookNotification.parse_contact, getItem_ok hvw,
      get_obj, hn, Json.get, Json.lookup, Bind.bind, Except.bind, Pure.pure, Except.pure]⟩
  case _ pkvs hs =>
    exact ⟨⟨vw, (Json.lookup pkvs "name").getD .null⟩,
      by simp [WebhookNotification.parse_contact, getItem_ok hvw, get_obj, hs,
        Bind.bind, Except.bind, Pure.pure, Except.pure]⟩
  case _ => exact absurd hprof (by simp)

theorem parse_change_ok {j : Json} (h : changeWF j = true) :
    ∃ n, WebhookNotification.parse_change j = .ok n := by
  rcases j with _ | b | n | t | xs | kvs <;> try exact Bool.noConfusion h
  simp only [changeWF] at h
  split at h
  case _ vkvs hv =>
    simp only [Bool.and_eq_true, and_assoc] at h
    obtain ⟨hmeta, hcon, hmsg, hstat⟩ := h
    split at hmeta
    case _ mkvs hm =>
      split at hcon
      case _ cs hc =>
        split at hmsg
        case _ ms hms =>
          split at hstat
          case _ ss hss =>
            obtain ⟨contacts, hcontacts⟩ :=
              mapM_ok fun c hcmem => parse_contact_ok (List.all_eq_true.mp hcon c hcmem)
            obtain ⟨messages, hmessages⟩ :=
              mapM_ok fun m hmmem => parse_message_ok (List.all_eq_true.mp hmsg m hmmem)
            have hstat2 : ∀ x ∈ ss, ∃ st, WebhookNotification.parse_status x = .ok st := by
              intro x hx
              have hx2 := List.all_eq_true.mp hstat x hx
              rcases x with _ | b2 | n2 | t2 | xs2 | skvs <;> simp [statusWF] at hx2
              obtain ⟨st, hst, _⟩ := @parse_status_ok skvs (by simp [statusWF, hx2])
              exact ⟨st, hst⟩
            obtain ⟨statuses, hstatuses⟩ := mapM_ok hstat2
            refine ⟨⟨⟨(Json.lookup mkvs "display_phone_number").getD (.str ""),
                (Json.lookup mkvs "phone_number_id").getD (.str "")⟩,
                contacts, messages, statuses⟩, ?_⟩
            simp only [WebhookNotification.parse_change, get_obj, hv, exbind_ok, hm,
              hc, hms, hss, Json.iterate, hcontacts, hmessages, hstatuses, expure]
          case _ => exact absurd hstat (by simp)
        case _ => exact absurd hmsg (by simp)
      case _ => exact absurd hcon (by simp)
    case _ => exact absurd hmeta (by simp)
  case _ => exact absurd h (by simp)

theorem from_dict_ok {data : Json} (h : payloadWF data = true) :
    ∃ ns, WebhookNotification.from_dict data = .ok ns := by
  rcases data with _ | b | n | t | xs | kvs <;> try exact Bool.noConfusion h
  simp only [payloadWF] at h
  split at h
  case _ es he =>
    have hall : ∀ e ∈ es, ∃ r, (fun (entry : Json) => do
        let changesVal ← Json.get entry "changes" (.arr [])
        let changes ← changesVal.iterate
        changes.mapM WebhookNotification.parse_change) e = Except.ok r := by
      intro e hemem
      have he2 := List.all_eq_true.mp h e hemem
      rcases e with _ | b2 | n2 | t2 | xs2 | ekvs <;> try exact Bool.noConfusion he2
      simp only [entryWF] at he2
      split at he2
      case _ cs hcs =>
        obtain ⟨rs, hrs⟩ :=
          mapM_ok fun c hcmem => parse_change_ok (List.all_eq_true.mp he2 c hcmem)
        exact ⟨rs, by simp only [get_obj, hcs, exbind_ok, Json.iterate, hrs, expure]⟩
      case _ => exact absurd he2 (by simp)
    obtain ⟨per, hper⟩ := mapM_ok hall
    refine ⟨per.flatten, ?_⟩
    simp only [Json.iterate] at hper
    simp only [WebhookNotification.from_dict, get_obj, he, exbind_ok, Json.iterate,
      hper, expure]
  case _ => exact absurd h (by simp)

end WhatsApp

namespace WhatsApp

theorem hexChar_toNat_lt (n : Nat) : (hexChar n).toNat < 128 := by
  unfold hexChar
  by_cases h : n < 16
  · interval_cases n <;> decide
  · rw [List.getD_eq_default]
    · decide
    · have hlen : ("0123456789abcdef".data).length = 16 := by decide
      omega

theorem bytesToHex_ascii (bs : List Nat) : isAsciiStr (bytesToHex bs) = true := by
  unfold isAsciiStr bytesToHex
  rw [List.all_eq_true]
  intro c hc
  simp only [show (String.mk ((bs.map fun b => [hexChar (b / 16 % 16), hexChar (b % 16)]).flatten)).data
      = (bs.map fun b => [hexChar (b / 16 % 16), hexChar (b % 16)]).flatten from rfl] at hc
  rw [List.mem_flatten] at hc
  obtain ⟨l, hl, hcl⟩ := hc
  rw [List.mem_map] at hl
  obtain ⟨b, _, hb⟩ := hl
  subst hb
  simp only [List.mem_cons, List.not_mem_nil, or_false] at hcl
  rcases hcl with h1 | h1 <;> subst h1 <;> simp [decide_eq_true_eq, hexChar_toNat_lt]

theorem string_data_append (a b : String) : (a ++ b).data = a.data ++ b.data := by
  cases a; cases b; rfl

theorem string_mk_data (s : String) : String.mk s.data = s := by
  cases s; rfl

theorem strStartsWith_append (t : String) :
    strStartsWith ("sha256=" ++ t) "sha256=" = true := by
  unfold strStartsWith
  rw [string_data_append, List.isPrefixOf_iff_prefix]
  exact List.prefix_append _ _

theorem strRemovePrefix_append (t : String) :
    strRemovePrefix ("sha256=" ++ t) "sha256=" = t := by
  unfold strRemovePrefix
  rw [strStartsWith_append, if_cond_true, string_data_append, List.drop_left]

theorem verify_signature_self (body secret : List Nat) :
    verify_signature body ("sha256=" ++ hmacSha256Hex secret body) secret = .ok () := by
  unfold verify_signature
  rw [strStartsWith_append, if_cond_true, strRemovePrefix_append]
  have ha : isAsciiStr (hmacSha256Hex secret body) = true := bytesToHex_ascii _
  simp [compare_digest, ha]

theorem verify_signature_mismatch (body secret : List Nat) (h : String)
    (hne : h ≠ hmacSha256Hex secret body) (hascii : isAsciiStr h = true) :
    verify_signature body ("sha256=" ++ h) secret = .error .signatureMismatch := by
  unfold verify_signature
  rw [strStartsWith_append, if_cond_true, strRemovePrefix_append]
  have ha : isAsciiStr (hmacSha256Hex secret body) = true := bytesToHex_ascii _
  have hd : decide (hmacSha256Hex secret body = h) = false :=
    decide_eq_false fun hc => hne hc.symm
  simp [compare_digest, ha, hascii, hd]

theorem verify_signature_malformed (body secret : List Nat) (sig : String)
    (h : strStartsWith sig "sha256=" = false) :
    verify_signature body sig secret = .error .malformedSignature := by
  unfold verify_signature
  rw [h, if_cond_false]

theorem foldl_push_eq {α β : Type} (f : α → β) (xs : List α) (acc : List β) :
    xs.foldl (fun a x => a ++ [f x]) acc = acc ++ xs.map f := by
  induction xs generalizing acc with
  | nil => simp
  | cons x rest ih => simp [List.foldl_cons, ih]

theorem handleLoop_eq_spec (onM onS : Bool) (ns : List WebhookNotification) :
    handleLoop onM onS ns = specEventOrder onM onS ns := by
  have haux : ∀ (ms : List WebhookNotification) (acc : List HandleEvent),
      ms.foldl
        (fun acc n =>
          let acc1 :=
            if onM then n.messages.foldl (fun a m => a ++ [HandleEvent.message n m]) acc
            else acc
          if onS then n.statuses.foldl (fun a s => a ++ [HandleEvent.status n s]) acc1
          else acc1)
        acc
      = acc ++ specEventOrder onM onS ms := by
    intro ms
    induction ms with
    | nil => intro acc; simp [specEventOrder]
    | cons n rest ih =>
      intro acc
      rw [List.foldl_cons, ih]
      simp only [specEventOrder, List.map_cons, List.flatten_cons]
      cases onM <;> cases onS <;> simp [foldl_push_eq, specEventOrder]
  unfold handleLoop
  rw [haux ns []]
  simp

end WhatsApp

namespace WhatsApp

/-- C3: for every body, app secret, and signature that does not start with
the literal prefix sha256=, `verify_signature` raises a
`WebhookVerificationError` of kind malformed-signature, regardless of the
body and secret values (the result does not depend on any HMAC of them). -/
theorem verify_signature_missing_prefix_malformed (body secret : List Nat) (sig : String)
    (h : strStartsWith sig "sha256=" = false) :
    verify_signature body sig secret = .error .malformedSignature :=
  verify_signature_malformed body secret sig h

/-- C3 witness at the concrete signature "abc". -/
theorem verify_signature_missing_prefix_malformed_witness :
    strStartsWith "abc" "sha256=" = false ∧
      verify_signature [] "abc" [] = .error .malformedSignature :=
  ⟨by decide, verify_signature_missing_prefix_malformed [] [] "abc" (by decide)⟩

/-- C4: whenever signature verification fails with some error `e`,
`WebhookHandler.handle` returns exactly that `WebhookVerificationError`
unchanged and performs nothing else: for every body (decodable or not) and
any registered handlers, the result carries no callback invocation, so the
body is neither JSON-decoded nor parsed and no handler runs. -/
theorem handle_propagates_verification_error (on_message on_status : Bool)
    (secret body : List Nat) (sig : String) (e : VerifyErr)
    (h : verify_signature body sig secret = .error e) :
    WebhookHandler.handle on_message on_status secret body sig = .error (.verification e) := by
  unfold WebhookHandler.handle
  rw [h]

/-- C4 witness: a malformed signature over a body that is not even JSON. -/
theorem handle_propagates_verification_error_witness :
    WebhookHandler.handle true true [] (strBytes "not json") "bad"
      = .error (.verification .malformedSignature) :=
  handle_propagates_verification_error true true [] (strBytes "not json") "bad"
    .malformedSignature (by decide)

/-- C5: on a verified and decoded body, `WebhookHandler.handle` returns the
callback trace `specEventOrder`: notifications in source order, and within
each notification the message handler once per message in payload order
(when registered), then the status handler once per status in payload
order (when registered), each receiving the notification and the event;
unregistered categories are dropped and `handle` still completes. -/
theorem handle_dispatch_order (on_message on_status : Bool) (secret body : List Nat)
    (sig : String) (data : Json) (ns : List WebhookNotification)
    (hv : verify_signature body sig secret = .ok ())
    (hj : jsonLoads body = .ok data)
    (hp : WebhookNotification.from_dict data = .ok ns) :
    WebhookHandler.handle on_message on_status secret body sig
      = .ok (specEventOrder on_message on_status ns) := by
  simp only [WebhookHandler.handle, hv, hj, hp, handleLoop_eq_spec]

/-- C5 witness: a correctly signed empty-object body. -/
theorem handle_dispatch_order_witness :
    WebhookHandler.handle true true [] (strBytes "\x7b\x7d")
        ("sha256=" ++ hmacSha256Hex [] (strBytes "\x7b\x7d"))
      = .ok (specEventOrder true true []) :=
  handle_dispatch_order true true [] (strBytes "\x7b\x7d") _ (.obj []) []
    (verify_signature_self _ _) (by decide) (by decide)

/-- C6: both source shapes normalize to the ButtonReply content: a message
of type button with button.payload/button.text, and a message of type
interactive with interactive.type button_reply and button_reply.id/.title,
parse to `ButtonReplyContent` with the corresponding id and title, for all
string values. -/
theorem button_shapes_normalize_to_buttonReply (p t i ti : String) :
    WebhookNotification.parse_content
        (.obj [("type", .str "button"),
               ("button", .obj [("payload", .str p), ("text", .str t)])])
      = .ok (.buttonReply (.str p) (.str t)) ∧
    WebhookNotification.parse_content
        (.obj [("type", .str "interactive"),
               ("interactive", .obj [("type", .str "button_reply"),
                 ("button_reply", .obj [("id", .str i), ("title", .str ti)])])])
      = .ok (.buttonReply (.str i) (.str ti)) := by
  constructor <;> rfl

/-- C9: parsing the empty dict yields no notifications; and a payload with
a single change whose value holds only a metadata dict yields exactly one
notification with empty contacts, messages and statuses, the metadata
fields defaulting to the empty string when their keys are absent. -/
theorem from_dict_empty_and_metadata_only (meta : List (String × Json)) :
    WebhookNotification.from_dict (.obj []) = .ok [] ∧
    WebhookNotification.from_dict
        (.obj [("entry", .arr [.obj [("changes", .arr [.obj [("value",
          .obj [("metadata", .obj meta)])]])]])])
      = .ok [⟨⟨(Json.lookup meta "display_phone_number").getD (.str ""),
              (Json.lookup meta "phone_number_id").getD (.str "")⟩, [], [], []⟩] := by
  constructor <;> rfl

end WhatsApp

namespace WhatsApp

/-- C1 counterexample: a dict payload whose single message is the empty
dict makes `from_dict` raise `KeyError` for the key id, so the parser is
not total on dicts and does not merely degrade to defaults or
Unsupported. -/
theorem from_dict_raises_on_missing_id :
    WebhookNotification.from_dict
        (.obj [("entry", .arr [.obj [("changes", .arr [.obj [("value",
          .obj [("messages", .arr [.obj []])])]])]])])
      = .error (.keyError "id") := by decide

/-- C1 amended: `from_dict` returns an ordered notification list without
raising for every payload satisfying the shape conditions `payloadWF`
(entries, changes, values and metadata of dict or list shape as accessed,
each contact with wa_id, each message with id, from and timestamp, its
context a dict with from and id when present, each recognized content
type carrying its sub-object with the fields the code reads, each status
with the four required keys and well-formed optional blocks); messages of
unrecognized type need no sub-object and degrade to Unsupported. -/
theorem from_dict_ok_of_payloadWF (data : Json) (h : payloadWF data = true) :
    ∃ ns, WebhookNotification.from_dict data = .ok ns :=
  from_dict_ok h

/-- C1 witness: a payload with a text message, a contact and a status. -/
theorem from_dict_ok_of_payloadWF_witness :
    payloadWF
        (.obj [("entry", .arr [.obj [("changes", .arr [.obj [("value",
          .obj [("metadata", .obj [("display_phone_number", .str "15550000000"),
                  ("phone_number_id", .str "12345")]),
                ("contacts", .arr [.obj [("wa_id", .str "15551234567"),
                  ("profile", .obj [("name", .str "Ana")])]]),
                ("messages", .arr [.obj [("id", .str "wamid.X"),
                  ("from", .str "15551234567"), ("timestamp", .str "1700000000"),
                  ("type", .str "text"),
                  ("text", .obj [("body", .str "hello")])]]),
                ("statuses", .arr [.obj [("id", .str "wamid.Y"),
                  ("status", .str "delivered"), ("timestamp", .str "1700000001"),
                  ("recipient_id", .str "15557654321")]])])]])]])])
      = true ∧
    ∃ ns, WebhookNotification.from_dict
        (.obj [("entry", .arr [.obj [("changes", .arr [.obj [("value",
          .obj [("metadata", .obj [("display_phone_number", .str "15550000000"),
                  ("phone_number_id", .str "12345")]),
                ("contacts", .arr [.obj [("wa_id", .str "15551234567"),
                  ("profile", .obj [("name", .str "Ana")])]]),
                ("messages", .arr [.obj [("id", .str "wamid.X"),
                  ("from", .str "15551234567"), ("timestamp", .str "1700000000"),
                  ("type", .str "text"),
                  ("text", .obj [("body", .str "hello")])]]),
                ("statuses", .arr [.obj [("id", .str "wamid.Y"),
                  ("status", .str "delivered"), ("timestamp", .str "1700000001"),
                  ("recipient_id", .str "15557654321")]])])]])]])])
      = .ok ns :=
  ⟨by decide, from_dict_ok_of_payloadWF _ (by decide)⟩

/-- C2 counterexample: the claim quantifies over every string h differing
from the expected hex digest, but for the one-character non-ASCII h = ü
the code raises TypeError (from hmac.compare_digest on non-ASCII str
arguments), not the claimed signature-mismatch verification error. -/
theorem verify_signature_nonascii_counterexample :
    verify_signature [] "sha256=\u00fc" [] = .error .typeError ∧
      ("\u00fc" : String) ≠ hmacSha256Hex [] [] := by
  constructor
  · decide
  · decide

/-- C2 amended: signing round-trips — verification of
sha256= followed by the lowercase hex HMAC-SHA256 of the body under the
secret succeeds for every body and secret; and every ASCII h differing
from that digest yields the signature-mismatch error (a non-ASCII h
instead raises TypeError inside hmac.compare_digest). -/
theorem verify_signature_roundtrip_and_mismatch (body secret : List Nat) (h : String) :
    verify_signature body ("sha256=" ++ hmacSha256Hex secret body) secret = .ok () ∧
    (isAsciiStr h = true → h ≠ hmacSha256Hex secret body →
      verify_signature body ("sha256=" ++ h) secret = .error .signatureMismatch) :=
  ⟨verify_signature_self body secret,
   fun ha hne => verify_signature_mismatch body secret h hne ha⟩

/-- C2 witness at the empty body, empty secret and h = 00. -/
theorem verify_signature_roundtrip_and_mismatch_witness :
    verify_signature [] ("sha256=" ++ hmacSha256Hex [] []) [] = .ok () ∧
    verify_signature [] ("sha256=" ++ "00") [] = .error .signatureMismatch :=
  ⟨(verify_signature_roundtrip_and_mismatch [] [] "00").1,
   (verify_signature_roundtrip_and_mismatch [] [] "00").2 (by decide) (by decide)⟩

end WhatsApp

namespace WhatsApp

/-- C7: a message whose type (a missing key defaults to the empty string)
is none of the recognized tags parses to Unsupported carrying exactly the
original message object; likewise a message of type interactive whose
interactive.type is neither button_reply nor list_reply. -/
theorem unrecognized_type_unsupported_roundtrip (kvs ikvs : List (String × Json)) :
    ((Json.lookup kvs "type").getD (.str "") ∉ recognizedTypes.map Json.str →
      WebhookNotification.parse_content (.obj kvs) = .ok (.unsupported (.obj kvs))) ∧
    (Json.lookup kvs "type" = some (.str "interactive") →
     Json.lookup kvs "interactive" = some (.obj ikvs) →
     (Json.lookup ikvs "type").getD (.str "") ∉ [Json.str "button_reply", Json.str "list_reply"] →
     WebhookNotification.parse_content (.obj kvs) = .ok (.unsupported (.obj kvs))) := by
  constructor
  · intro h1
    have ne : ∀ name ∈ recognizedTypes,
        (Json.lookup kvs "type").getD (.str "") ≠ .str name :=
      fun name hm hc => h1 (hc ▸ List.mem_map_of_mem _ hm)
    have n1 := ne "text" (by simp [recognizedTypes])
    have n2 := ne "image" (by simp [recognizedTypes])
    have n3 := ne "video" (by simp [recognizedTypes])
    have n4 := ne "audio" (by simp [recognizedTypes])
    have n5 := ne "document" (by simp [recognizedTypes])
    have n6 := ne "sticker" (by simp [recognizedTypes])
    have n7 := ne "location" (by simp [recognizedTypes])
    have n8 := ne "button" (by simp [recognizedTypes])
    have n9 := ne "interactive" (by simp [recognizedTypes])
    have n10 := ne "reaction" (by simp [recognizedTypes])
    simp [WebhookNotification.parse_content, get_obj, n1, n2, n3, n4, n5, n6, n7, n8, n9,
      n10, Bind.bind, Except.bind, Pure.pure, Except.pure]
  · intro h1 h2 h3
    have i1 : (Json.lookup ikvs "type").getD (.str "") ≠ Json.str "button_reply" :=
      fun hc => h3 (by simp [hc])
    have i2 : (Json.lookup ikvs "type").getD (.str "") ≠ Json.str "list_reply" :=
      fun hc => h3 (by simp [hc])
    simp [WebhookNotification.parse_content, get_obj, h1, getItem_ok h2, i1, i2,
      Bind.bind, Except.bind, Pure.pure, Except.pure]

/-- C7 witness at type unknown_type and at interactive.type unknown_type. -/
theorem unrecognized_type_unsupported_roundtrip_witness :
    WebhookNotification.parse_content (.obj [("type", .str "unknown_type")])
      = .ok (.unsupported (.obj [("type", .str "unknown_type")])) ∧
    WebhookNotification.parse_content
        (.obj [("type", .str "interactive"),
               ("interactive", .obj [("type", .str "unknown_type")])])
      = .ok (.unsupported (.obj [("type", .str "interactive"),
               ("interactive", .obj [("type", .str "unknown_type")])])) :=
  ⟨(unrecognized_type_unsupported_roundtrip [("type", .str "unknown_type")] []).1 (by decide),
   (unrecognized_type_unsupported_roundtrip
      [("type", .str "interactive"), ("interactive", .obj [("type", .str "unknown_type")])]
      [("type", .str "unknown_type")]).2 (by decide) (by decide) (by decide)⟩

end WhatsApp

namespace WhatsApp

/-- C8 counterexample: a status dict with all four required keys present
but a malformed optional conversation block still makes `_parse_status`
raise, so status parsing does not fail exactly when a required key is
absent. -/
theorem parse_status_fails_with_required_present :
    hasK [("id", Json.str "A"), ("status", Json.str "sent"), ("timestamp", Json.str "1"),
      ("recipient_id", Json.str "B"), ("conversation", Json.obj [])] "id" = true ∧
    hasK [("id", Json.str "A"), ("status", Json.str "sent"), ("timestamp", Json.str "1"),
      ("recipient_id", Json.str "B"), ("conversation", Json.obj [])] "status" = true ∧
    hasK [("id", Json.str "A"), ("status", Json.str "sent"), ("timestamp", Json.str "1"),
      ("recipient_id", Json.str "B"), ("conversation", Json.obj [])] "timestamp" = true ∧
    hasK [("id", Json.str "A"), ("status", Json.str "sent"), ("timestamp", Json.str "1"),
      ("recipient_id", Json.str "B"), ("conversation", Json.obj [])] "recipient_id" = true ∧
    WebhookNotification.parse_status
        (.obj [("id", Json.str "A"), ("status", Json.str "sent"), ("timestamp", Json.str "1"),
          ("recipient_id", Json.str "B"), ("conversation", Json.obj [])])
      = .error (.keyError "id") := by decide

/-- C8 amended: status parsing fails whenever one of the four required
keys id, status, timestamp, recipient_id is absent; and on a status
object whose present optional blocks are well-formed (`statusWF`) it
succeeds, with conversation, pricing and errors each parsed if and only
if the corresponding key is present (a present but malformed optional
block also propagates an error, as the counterexample shows). -/
theorem parse_status_required_and_optional (kvs : List (String × Json)) :
    ((hasK kvs "id" = false ∨ hasK kvs "status" = false ∨ hasK kvs "timestamp" = false ∨
      hasK kvs "recipient_id" = false) →
      ∃ e, WebhookNotification.parse_status (.obj kvs) = .error e) ∧
    (statusWF (.obj kvs) = true →
      ∃ st, WebhookNotification.parse_status (.obj kvs) = .ok st ∧
        st.conversation.isSome = hasK kvs "conversation" ∧
        st.pricing.isSome = hasK kvs "pricing" ∧
        st.errors.isSome = hasK kvs "errors") := by
  constructor
  · intro h
    rcases hc : WebhookNotification.parse_status_conversation (.obj kvs) with ec | co
    · exact ⟨ec, by simp only [WebhookNotification.parse_status, hc, exbind_err]⟩
    rcases hp : WebhookNotification.parse_status_pricing (.obj kvs) with ep | po
    · exact ⟨ep, by simp only [WebhookNotification.parse_status, hc, hp, exbind_ok, exbind_err]⟩
    rcases he : WebhookNotification.parse_status_errors (.obj kvs) with ee | eo
    · exact ⟨ee, by simp only [WebhookNotification.parse_status, hc, hp, he, exbind_ok,
        exbind_err]⟩
    rcases hid : Json.lookup kvs "id" with _ | vi
    · exact ⟨.keyError "id", by simp only [WebhookNotification.parse_status, hc, hp, he,
        exbind_ok, Json.getItem, hid, exbind_err]⟩
    rcases hst : Json.lookup kvs "status" with _ | vs
    · exact ⟨.keyError "status", by simp only [WebhookNotification.parse_status, hc, hp, he,
        exbind_ok, Json.getItem, hid, hst, exbind_err]⟩
    rcases hts : Json.lookup kvs "timestamp" with _ | vt
    · exact ⟨.keyError "timestamp", by simp only [WebhookNotification.parse_status, hc, hp,
        he, exbind_ok, Json.getItem, hid, hst, hts, exbind_err]⟩
    rcases hrid : Json.lookup kvs "recipient_id" with _ | vr
    · exact ⟨.keyError "recipient_id", by simp only [WebhookNotification.parse_status, hc,
        hp, he, exbind_ok, Json.getItem, hid, hst, hts, hrid, exbind_err]⟩
    exact absurd h (by simp [hasK, hid, hst, hts, hrid])
  · exact fun h => parse_status_ok h

/-- C8 witness: a status missing id fails; a full status with a
well-formed conversation and no pricing or errors parses with exactly the
conversation optional populated. -/
theorem parse_status_required_and_optional_witness :
    (∃ e, WebhookNotification.parse_status (.obj [("status", Json.str "sent")]) = .error e) ∧
    (∃ st, WebhookNotification.parse_status
        (.obj [("id", Json.str "A"), ("status", Json.str "sent"), ("timestamp", Json.str "1"),
          ("recipient_id", Json.str "B"),
          ("conversation", .obj [("id", Json.str "C"),
            ("origin", .obj [("type", Json.str "service")])])])
      = .ok st ∧
      st.conversation.isSome = hasK [("id", Json.str "A"), ("status", Json.str "sent"),
        ("timestamp", Json.str "1"), ("recipient_id", Json.str "B"),
        ("conversation", Json.obj [("id", Json.str "C"),
          ("origin", Json.obj [("type", Json.str "service")])])] "conversation" ∧
      st.pricing.isSome = hasK [("id", Json.str "A"), ("status", Json.str "sent"),
        ("timestamp", Json.str "1"), ("recipient_id", Json.str "B"),
        ("conversation", Json.obj [("id", Json.str "C"),
          ("origin", Json.obj [("type", Json.str "service")])])] "pricing" ∧
      st.errors.isSome = hasK [("id", Json.str "A"), ("status", Json.str "sent"),
        ("timestamp", Json.str "1"), ("recipient_id", Json.str "B"),
        ("conversation", Json.obj [("id", Json.str "C"),
          ("origin", Json.obj [("type", Json.str "service")])])] "errors") :=
  ⟨(parse_status_required_and_optional [("status", Json.str "sent")]).1 (by decide),
   (parse_status_required_and_optional [("id", Json.str "A"), ("status", Json.str "sent"),
      ("timestamp", Json.str "1"), ("recipient_id", Json.str "B"),
      ("conversation", Json.obj [("id", Json.str "C"),
        ("origin", Json.obj [("type", Json.str "service")])])]).2 (by decide)⟩

end WhatsApp

namespace WhatsApp

theorem parse_context_cases (kvs : List (String × Json)) (h : ctxIsDict kvs = true) :
    (∃ co, WebhookNotification.parse_context (.obj kvs) = .ok co) ∨
    (∃ k, WebhookNotification.parse_context (.obj kvs) = .error (.keyError k)) := by
  unfold ctxIsDict at h
  split at h
  case _ hn =>
    exact .inl ⟨none, by simp [WebhookNotification.parse_context, hasKey_obj, hasK, hn,
      Bind.bind, Except.bind, Pure.pure, Except.pure]⟩
  case _ ckvs hs =>
    rcases hf : Json.lookup ckvs "from" with _ | vf
    · exact .inr ⟨"from", by simp [WebhookNotification.parse_context, hasKey_obj, hasK, hs,
        getItem_ok hs, Json.getItem, hf, Bind.bind, Except.bind, Pure.pure, Except.pure]⟩
    rcases hi : Json.lookup ckvs "id" with _ | vi
    · exact .inr ⟨"id", by simp [WebhookNotification.parse_context, hasKey_obj, hasK, hs,
        getItem_ok hs, Json.getItem, hf, hi,
        Bind.bind, Except.bind, Pure.pure, Except.pure]⟩
    exact .inl ⟨some ⟨vf, vi⟩, by simp [WebhookNotification.parse_context, hasKey_obj,
      hasK, hs, getItem_ok hs, getItem_ok hf, getItem_ok hi,
      Bind.bind, Except.bind, Pure.pure, Except.pure]⟩
  case _ => exact absurd h (by simp)

theorem parse_message_keyerror_cases (kvs : List (String × Json))
    (hctx : ctxIsDict kvs = true) :
    ((hasK kvs "id" = false ∨ hasK kvs "from" = false ∨ hasK kvs "timestamp" = false) →
      ∃ k, WebhookNotification.parse_message (.obj kvs) = .error (.keyError k)) ∧
    (∀ t, hasK kvs "id" = true → hasK kvs "from" = true → hasK kvs "timestamp" = true →
      Json.lookup kvs "type" = some (.str t) → t ∈ recognizedTypes → hasK kvs t = false →
      ∃ k, WebhookNotification.parse_message (.obj kvs) = .error (.keyError k)) := by
  constructor
  · intro h
    rcases parse_context_cases kvs hctx with ⟨co, hco⟩ | ⟨k, hk⟩
    · rcases hid : Json.lookup kvs "id" with _ | vi
      · exact ⟨"id", by simp only [WebhookNotification.parse_message, hco, exbind_ok,
          Json.getItem, hid, exbind_err]⟩
      rcases hfrom : Json.lookup kvs "from" with _ | vf
      · exact ⟨"from", by simp only [WebhookNotification.parse_message, hco, exbind_ok,
          Json.getItem, hid, hfrom, exbind_err]⟩
      rcases hts : Json.lookup kvs "timestamp" with _ | vt
      · exact ⟨"timestamp", by simp only [WebhookNotification.parse_message, hco, exbind_ok,
          Json.getItem, hid, hfrom, hts, exbind_err]⟩
      exact absurd h (by simp [hasK, hid, hfrom, hts])
    · exact ⟨k, by simp only [WebhookNotification.parse_message, hk, exbind_err]⟩
  · intro t hid hfrom hts htype hmem hsub
    rcases parse_context_cases kvs hctx with ⟨co, hco⟩ | ⟨k, hk⟩
    · obtain ⟨vi, hvi⟩ := Option.isSome_iff_exists.mp (by simpa [hasK] using hid)
      obtain ⟨vf, hvf⟩ := Option.isSome_iff_exists.mp (by simpa [hasK] using hfrom)
      obtain ⟨vt, hvt⟩ := Option.isSome_iff_exists.mp (by simpa [hasK] using hts)
      have hln : Json.lookup kvs t = none := by
        rcases hl : Json.lookup kvs t with _ | v
        · rfl
        · simp [hasK, hl] at hsub
      refine ⟨t, ?_⟩
      simp only [recognizedTypes, List.mem_cons, List.not_mem_nil, or_false] at hmem
      rcases hmem with rfl | rfl | rfl | rfl | rfl | rfl | rfl | rfl | rfl | rfl <;>
        simp [WebhookNotification.parse_message, WebhookNotification.parse_content, hco,
          get_obj, htype, Json.getItem, hvi, hvf, hvt, hln,
          Bind.bind, Except.bind, Pure.pure, Except.pure]
    · exact ⟨k, by simp only [WebhookNotification.parse_message, hk, exbind_err]⟩

theorem from_dict_single_message (msg : Json) :
    WebhookNotification.from_dict (payloadWithMessage msg)
      = match WebhookNotification.parse_message msg with
        | .ok m => .ok [⟨⟨.str "", .str ""⟩, [], [m], []⟩]
        | .error e => .error e := by
  rcases hm : WebhookNotification.parse_message msg with e | m <;>
    simp [WebhookNotification.from_dict, WebhookNotification.parse_change, payloadWithMessage,
      get_obj, Json.get, Json.iterate, Json.lookup, List.mapM, List.mapM.loop, hm,
      Bind.bind, Except.bind, Pure.pure, Except.pure]

end WhatsApp

namespace WhatsApp

/-- C10 counterexample: a message lacking id whose context key holds a
non-dict makes `from_dict` raise TypeError (subscripting an int), not the
claimed KeyError. -/
theorem from_dict_typeerror_on_nondict_context :
    WebhookNotification.from_dict (payloadWithMessage (.obj [("context", .num 5)]))
      = .error .typeError := by decide

/-- C10 amended: message parsing is partial at the public parse interface:
for a message object whose context key, when present, maps to a dict, if
any of id, from or timestamp is missing, or its recognized type names a
sub-object key (the key equal to the type tag) that is absent,
`from_dict` raises a KeyError instead of degrading; a message whose
context key maps to a non-dict raises TypeError instead. -/
theorem from_dict_keyerror_on_malformed_message (kvs : List (String × Json))
    (hctx : ctxIsDict kvs = true) :
    ((hasK kvs "id" = false ∨ hasK kvs "from" = false ∨ hasK kvs "timestamp" = false) →
      ∃ k, WebhookNotification.from_dict (payloadWithMessage (.obj kvs))
        = .error (.keyError k)) ∧
    (∀ t, hasK kvs "id" = true → hasK kvs "from" = true → hasK kvs "timestamp" = true →
      Json.lookup kvs "type" = some (.str t) → t ∈ recognizedTypes → hasK kvs t = false →
      ∃ k, WebhookNotification.from_dict (payloadWithMessage (.obj kvs))
        = .error (.keyError k)) := by
  obtain ⟨ha, hb⟩ := parse_message_keyerror_cases kvs hctx
  constructor
  · intro h
    obtain ⟨k, hk⟩ := ha h
    exact ⟨k, by rw [from_dict_single_message, hk]⟩
  · intro t h1 h2 h3 h4 h5 h6
    obtain ⟨k, hk⟩ := hb t h1 h2 h3 h4 h5 h6
    exact ⟨k, by rw [from_dict_single_message, hk]⟩

/-- C10 witness: a message missing id, and a text message missing its
text sub-object. -/
theorem from_dict_keyerror_on_malformed_message_witness :
    (∃ k, WebhookNotification.from_dict (payloadWithMessage
        (.obj [("from", .str "1"), ("timestamp", .str "2")])) = .error (.keyError k)) ∧
    (∃ k, WebhookNotification.from_dict (payloadWithMessage
        (.obj [("id", .str "A"), ("from", .str "1"), ("timestamp", .str "2"),
               ("type", .str "text")])) = .error (.keyError k)) :=
  ⟨(from_dict_keyerror_on_malformed_message [("from", .str "1"), ("timestamp", .str "2")]
      (by decide)).1 (by decide),
   (from_dict_keyerror_on_malformed_message [("id", .str "A"), ("from", .str "1"),
      ("timestamp", .str "2"), ("type", .str "text")] (by decide)).2 "text"
      (by decide) (by decide) (by decide) (by decide) (by decide) (by decide)⟩

end WhatsApp
